import Mathlib

/-!
Verification of the OpenPGP object-assertion library
(`all/background_page/utils/openpgp/openpgpAssertions.js`) and the private-key
decryption service (`all/background_page/service/crypto/decryptPrivateKeyService.js`)
of the passbolt browser-extension fork.

Embedding conventions:
* JavaScript values that flow into these functions are modelled by the closed
  universe `JSValue`; `instanceof` checks and `typeof`/`Array.isArray` checks
  become Bool-valued discriminators over that universe.
* In the underlying openpgp library, `PrivateKey` is a subclass of `PublicKey`,
  so every key object is an instance of `PublicKey`; the class tag `KeyClass`
  records whether the object is additionally an instance of `PrivateKey`.
* A thrown `Error`/`TypeError` becomes `Except.error` carrying a `JsError`;
  the message strings are the exact (pre-localization) template strings of the
  source. Promises are sequentialized: `async` functions become plain
  `Except`-valued functions, and `Promise.all(xs.map(f))` becomes a sequential
  left-to-right map that stops at the first error.
-/

/-- Class tag of a key object. In the source library `openpgp.PrivateKey` is a
subclass of `openpgp.PublicKey`, so a value of class `privateCls` is also an
instance of `PublicKey`. -/
inductive KeyClass where
  | publicCls
  | privateCls
deriving DecidableEq

/-- A key object produced by the openpgp collaborator: its runtime class and
the results of its `isPrivate()` and `isDecrypted()` methods. -/
structure KeyObj where
  cls : KeyClass
  isPrivateFlag : Bool
  isDecryptedFlag : Bool
deriving DecidableEq

/-- A packet of a message: its packet tag and its `encrypted` field, where
`none` models the JavaScript value `null` (payload recovered) and `some ()`
models any non-null value (payload still encrypted, or never touched). -/
structure PacketObj where
  tag : Nat
  encrypted : Option Unit
deriving DecidableEq

/-- A message object (`openpgp.Message`): its packet list. -/
structure MessageObj where
  packets : List PacketObj
deriving DecidableEq

/-- A cleartext message object (`openpgp.CleartextMessage`). -/
structure CleartextObj where
  text : String
deriving DecidableEq

/-- The closed universe of JavaScript values reaching this layer. `obj` is a
plain object exposing the two fields (`data`, `algorithm`) this layer reads;
`uint8arr` is a `Uint8Array` of byte values. -/
inductive JSValue where
  | undefined
  | null
  | num (n : Int)
  | str (s : String)
  | arr (xs : List JSValue)
  | uint8arr (bytes : List Nat)
  | key (k : KeyObj)
  | message (m : MessageObj)
  | cleartext (c : CleartextObj)
  | obj (dataField algorithmField : JSValue)

/-- Error taxonomy of the spec. `formatError` carries the template string of
the thrown `Error`/`TypeError`; `wrappedFormatError` is the error thrown with
a `cause` when the collaborator rejects the session-key algorithm tag;
`passphraseValidationError` is the spec's passphrase-validation error kind;
the last two kinds exist in the taxonomy for the strict decrypt path. -/
inductive JsError where
  | formatError (msg : String)
  | wrappedFormatError (msg : String)
  | passphraseValidationError
  | invalidMasterPasswordError
  | illegalStateError
deriving DecidableEq

/-- Does a result fail with a `FormatError` (shape/grammar error)? -/
def failsWithFormatError {α : Type} : Except JsError α → Bool
  | Except.error (JsError.formatError _) => true
  | _ => false

/-- `typeof v === "string"`. -/
def isStringV : JSValue → Bool
  | JSValue.str _ => true
  | _ => false

/-- `Array.isArray(v)`. -/
def isArrayV : JSValue → Bool
  | JSValue.arr _ => true
  | _ => false

/-- `v instanceof openpgp.PublicKey`: every key object qualifies, because
`PrivateKey` extends `PublicKey`. -/
def instanceOfPublicKey : JSValue → Bool
  | JSValue.key _ => true
  | _ => false

/-- `v instanceof openpgp.PrivateKey`. -/
def instanceOfPrivateKey : JSValue → Bool
  | JSValue.key k => k.cls = KeyClass.privateCls
  | _ => false

/-- `v instanceof openpgp.Message`. -/
def instanceOfMessage : JSValue → Bool
  | JSValue.message _ => true
  | _ => false

/-- `v instanceof openpgp.CleartextMessage`. -/
def instanceOfCleartextMessage : JSValue → Bool
  | JSValue.cleartext _ => true
  | _ => false

/-- `v instanceof Uint8Array`. -/
def instanceOfUint8Array : JSValue → Bool
  | JSValue.uint8arr _ => true
  | _ => false

/-- `Object.prototype.toString.call(v) === "[object Object]"`: true for plain
objects and for class instances without a custom string tag (key, message and
cleartext-message instances included); arrays, typed arrays, strings, numbers,
`null` and `undefined` report other tags. -/
def isPlainObjectToString : JSValue → Bool
  | JSValue.obj _ _ => true
  | JSValue.key _ => true
  | JSValue.message _ => true
  | JSValue.cleartext _ => true
  | _ => false

/-- `v.isPrivate()`; only ever evaluated on key objects in the source. -/
def isPrivateCall : JSValue → Bool
  | JSValue.key k => k.isPrivateFlag
  | _ => false

/-- `v.isDecrypted()`; only ever evaluated on key objects in the source. -/
def isDecryptedCall : JSValue → Bool
  | JSValue.key k => k.isDecryptedFlag
  | _ => false

/-- `v.data` on the universe (missing field reads as `undefined`). -/
def getData : JSValue → JSValue
  | JSValue.obj d _ => d
  | _ => JSValue.undefined

/-- `v.algorithm` on the universe (missing field reads as `undefined`). -/
def getAlgorithm : JSValue → JSValue
  | JSValue.obj _ a => a
  | _ => JSValue.undefined

/-- Strict equality `v === s` against a string literal: true exactly when `v`
is that string. -/
def strictEqStr : JSValue → String → Bool
  | JSValue.str s, t => s = t
  | _, _ => false

/-- `readKeyOrFail(armoredKey)`: type check, then delegate to the collaborator
`openpgp.readKey` (abstracted as `readKey : String → Option KeyObj`); any
parse failure is normalized to the same `FormatError`. -/
def readKeyOrFail (readKey : String → Option KeyObj) (armoredKey : JSValue) :
    Except JsError KeyObj :=
  match armoredKey with
  | JSValue.str s =>
    match readKey s with
    | some k => Except.ok k
    | none => Except.error (JsError.formatError "The key should be a valid openpgp armored key string.")
  | _ => Except.error (JsError.formatError "The key should be a valid openpgp armored key string.")

/-- Sequentialization of `Promise.all(xs.map(f))`: left-to-right map that
returns the first error, or all results in order. -/
def mapOrFail {α : Type} (f : JSValue → Except JsError α) :
    List JSValue → Except JsError (List α)
  | [] => Except.ok []
  | x :: xs =>
    match f x with
    | Except.error e => Except.error e
    | Except.ok k =>
      match mapOrFail f xs with
      | Except.error e => Except.error e
      | Except.ok ks => Except.ok (k :: ks)

/-- `readAllKeysOrFail(armoredKeys)`. -/
def readAllKeysOrFail (readKey : String → Option KeyObj) (armoredKeys : JSValue) :
    Except JsError (List KeyObj) :=
  match armoredKeys with
  | JSValue.arr xs => mapOrFail (readKeyOrFail readKey) xs
  | _ => Except.error (JsError.formatError "The keys should be an array of valid openpgp armored key strings.")

/-- `createMessageOrFail(message)`: after the type check, construction by the
collaborator (`createMessage : String → MessageObj`) always succeeds. -/
def createMessageOrFail (createMessage : String → MessageObj) (message : JSValue) :
    Except JsError MessageObj :=
  match message with
  | JSValue.str s => Except.ok (createMessage s)
  | _ => Except.error (JsError.formatError "The message should be of type string.")

/-- `createCleartextMessageOrFail(text)`. -/
def createCleartextMessageOrFail (createCleartextMessage : String → CleartextObj)
    (text : JSValue) : Except JsError CleartextObj :=
  match text with
  | JSValue.str s => Except.ok (createCleartextMessage s)
  | _ => Except.error (JsError.formatError "The message should be of type string.")

/-- `readMessageOrFail(message)`: type check, then collaborator parse
(`readMessage : String → Option MessageObj`) with the parse error normalized. -/
def readMessageOrFail (readMessage : String → Option MessageObj) (message : JSValue) :
    Except JsError MessageObj :=
  match message with
  | JSValue.str s =>
    match readMessage s with
    | some m => Except.ok m
    | none => Except.error (JsError.formatError "The message should be a valid openpgp message.")
  | _ => Except.error (JsError.formatError "The message should be of type string.")

/-- `readClearMessageOrFail(cleartextMessage)`. -/
def readClearMessageOrFail (readCleartextMessage : String → Option CleartextObj)
    (cleartextMessage : JSValue) : Except JsError CleartextObj :=
  match cleartextMessage with
  | JSValue.str s =>
    match readCleartextMessage s with
    | some m => Except.ok m
    | none => Except.error (JsError.formatError "The message should be a valid openpgp message.")
  | _ => Except.error (JsError.formatError "The message should be of type string.")

/-- Modelled from the spec: `assertNonEmptyString` lives in
`all/background_page/utils/assertions.js`, which is not among the sources
here; the spec says `readSessionKeyOrFail` "fails with FormatError if text is
empty or not a string". -/
def assertNonEmptyString (value : JSValue) (message : String) : Except JsError Unit :=
  match value with
  | JSValue.str s =>
    if s = "" then Except.error (JsError.formatError message) else Except.ok ()
  | _ => Except.error (JsError.formatError message)

/-- The character class `\d` of the session-key regular expression. -/
def regexDigit (c : Char) : Bool :=
  decide ('0' ≤ c) && decide (c ≤ '9')

/-- The character class `[0-9A-F]` under the case-insensitive flag. -/
def regexHexDigit (c : Char) : Bool :=
  regexDigit c || (decide ('A' ≤ c) && decide (c ≤ 'F')) || (decide ('a' ≤ c) && decide (c ≤ 'f'))

/-- The `[0-9A-F]` block of exactly 64 characters. -/
def hexBlock (hex : List Char) : Bool :=
  hex.length == 64 && hex.all regexHexDigit

/-- Executable reading of the anchored case-insensitive test
`^\d\x7b1,2\x7d:[0-9A-F]\x7b64\x7d$` on the character list of the input: one
digit, or two digits, then a colon, then exactly 64 hex characters. Because a
decimal digit is never a colon, the two alternatives are disjoint and this is
exactly the regular expression's language. -/
def sessionKeyRegexTest : List Char → Bool
  | c₁ :: c₂ :: rest =>
    if c₂ = ':' then regexDigit c₁ && hexBlock rest
    else
      match rest with
      | c₃ :: hex => (c₃ == ':') && regexDigit c₁ && regexDigit c₂ && hexBlock hex
      | [] => false
  | _ => false

/-- `split(":")[0]` of an input with exactly one colon: the characters before
the colon. -/
def beforeColon (l : List Char) : List Char :=
  l.takeWhile (fun c => c != ':')

/-- `split(":")[1]` of an input with exactly one colon: the characters after
the colon. -/
def afterColon (l : List Char) : List Char :=
  (l.dropWhile (fun c => c != ':')).drop 1

/-- Value of a hex character. -/
def hexCharVal (c : Char) : Nat :=
  if regexDigit c then c.toNat - Char.toNat '0'
  else if decide ('A' ≤ c) && decide (c ≤ 'F') then c.toNat - Char.toNat 'A' + 10
  else if decide ('a' ≤ c) && decide (c ≤ 'f') then c.toNat - Char.toNat 'a' + 10
  else 0

/-- Modelled from the spec: `Uint8ArrayConvert.fromHex` lives in
`all/background_page/utils/format/uint8ArrayConvert.js`, which is not among
the sources here; the spec says the hex payload "decodes to exactly 32 bytes",
i.e. consecutive pairs of hex characters become byte values. -/
def fromHex : List Char → List Nat
  | c₁ :: c₂ :: rest => (16 * hexCharVal c₁ + hexCharVal c₂) :: fromHex rest
  | _ => []

/-- The value returned by `readSessionKeyOrFail`: decoded bytes and the
algorithm name resolved by the collaborator. -/
structure ParsedSessionKey where
  data : List Nat
  algorithm : String
deriving DecidableEq

/-- `readSessionKeyOrFail(sessionKey)`: non-empty-string assertion, anchored
regular-expression test (a failure throws a `TypeError`, a `FormatError` in
the spec's taxonomy), then `split(":")` and resolution of the algorithm tag by
the collaborator `openpgp.enums.read` (abstracted as
`enumsRead : String → Option String`); an unrecognized tag throws the wrapped
error, and the payload decode itself cannot fail on a grammar match. -/
def readSessionKeyOrFail (enumsRead : String → Option String) (sessionKey : JSValue) :
    Except JsError ParsedSessionKey :=
  match assertNonEmptyString sessionKey "The session key should be a string." with
  | Except.error e => Except.error e
  | Except.ok () =>
    match sessionKey with
    | JSValue.str s =>
      if sessionKeyRegexTest s.data = false then
        Except.error (JsError.formatError "The parameter session key does not match the expected format \"integer:hexadecimal-string\".")
      else
        match enumsRead (String.mk (beforeColon s.data)) with
        | some a => Except.ok { data := fromHex (afterColon s.data), algorithm := a }
        | none => Except.error (JsError.wrappedFormatError "The session key should be a valid openpgp session key.")
    | _ => Except.error (JsError.formatError "The session key should be a string.")

/-- `assertKey(key)`. -/
def assertKey (key : JSValue) : Except JsError Unit :=
  if !instanceOfPublicKey key && !instanceOfPrivateKey key then
    Except.error (JsError.formatError "The key should be a valid openpgp key.")
  else Except.ok ()

/-- The shared `for` loop of the batch assertions: index order, first error
wins, later elements are not reached. -/
def assertEach (f : JSValue → Except JsError Unit) : List JSValue → Except JsError Unit
  | [] => Except.ok ()
  | x :: xs =>
    match f x with
    | Except.error e => Except.error e
    | Except.ok () => assertEach f xs

/-- `assertKeys(keys)`. -/
def assertKeys (keys : JSValue) : Except JsError Unit :=
  match keys with
  | JSValue.arr xs => assertEach assertKey xs
  | _ => Except.error (JsError.formatError "The keys should be an array.")

/-- `assertPublicKey(key)`: an `openpgp.PublicKey` instance that does not
answer `isPrivate()` with true. -/
def assertPublicKey (key : JSValue) : Except JsError Unit :=
  if !instanceOfPublicKey key || (instanceOfPublicKey key && isPrivateCall key) then
    Except.error (JsError.formatError "The key should be a valid openpgp public key.")
  else Except.ok ()

/-- `assertPublicKeys(keys)`. -/
def assertPublicKeys (keys : JSValue) : Except JsError Unit :=
  match keys with
  | JSValue.arr xs => assertEach assertPublicKey xs
  | _ => Except.error (JsError.formatError "The keys should be an array of valid openpgp public keys.")

/-- `assertPrivateKey(key)`: an `openpgp.PrivateKey` instance, with the
defensive extra check that `isPrivate()` answers true. -/
def assertPrivateKey (key : JSValue) : Except JsError Unit :=
  if !instanceOfPrivateKey key || (instanceOfPrivateKey key && !isPrivateCall key) then
    Except.error (JsError.formatError "The key should be a valid openpgp private key.")
  else Except.ok ()

/-- `assertPrivateKeys(keys)`. -/
def assertPrivateKeys (keys : JSValue) : Except JsError Unit :=
  match keys with
  | JSValue.arr xs => assertEach assertPrivateKey xs
  | _ => Except.error (JsError.formatError "The keys should be an array of valid openpgp private keys.")

/-- `assertDecryptedPrivateKey(key)`. -/
def assertDecryptedPrivateKey (key : JSValue) : Except JsError Unit :=
  match assertPrivateKey key with
  | Except.error e => Except.error e
  | Except.ok () =>
    if !isDecryptedCall key then
      Except.error (JsError.formatError "The private key should be decrypted.")
    else Except.ok ()

/-- `assertDecryptedPrivateKeys(keys)`. -/
def assertDecryptedPrivateKeys (keys : JSValue) : Except JsError Unit :=
  match keys with
  | JSValue.arr xs => assertEach assertDecryptedPrivateKey xs
  | _ => Except.error (JsError.formatError "The keys should be an array of valid decrypted openpgp private keys.")

/-- `assertEncryptedPrivateKey(key)`. -/
def assertEncryptedPrivateKey (key : JSValue) : Except JsError Unit :=
  match assertPrivateKey key with
  | Except.error e => Except.error e
  | Except.ok () =>
    if isDecryptedCall key then
      Except.error (JsError.formatError "The private key should be encrypted.")
    else Except.ok ()

/-- `assertEncryptedPrivateKeys(keys)`. -/
def assertEncryptedPrivateKeys (keys : JSValue) : Except JsError Unit :=
  match keys with
  | JSValue.arr xs => assertEach assertEncryptedPrivateKey xs
  | _ => Except.error (JsError.formatError "The keys should be an array of valid encrypted openpgp private keys.")

/-- `assertMessage(message)`. -/
def assertMessage (message : JSValue) : Except JsError Unit :=
  if !instanceOfMessage message then
    Except.error (JsError.formatError "The message should be a valid openpgp message.")
  else Except.ok ()

/-- `openpgp.enums.packet.publicKeyEncryptedSessionKey`. -/
def publicKeyEncryptedSessionKeyTag : Nat := 1

/-- `packets.findPacket(tag)`: the first packet carrying the tag. -/
def findPacket (packets : List PacketObj) (tag : Nat) : Option PacketObj :=
  packets.find? (fun p => p.tag == tag)

/-- `assertDecryptedMessage(message)`: `assertMessage`, then the first
public-key-encrypted-session-key packet must exist and its `encrypted` field
must be `null`. -/
def assertDecryptedMessage (message : JSValue) : Except JsError Unit :=
  match assertMessage message with
  | Except.error e => Except.error e
  | Except.ok () =>
    match message with
    | JSValue.message m =>
      match findPacket m.packets publicKeyEncryptedSessionKeyTag with
      | none => Except.error (JsError.formatError "The message should contain at least one session key.")
      | some p =>
        if p.encrypted ≠ none then
          Except.error (JsError.formatError "The message should be decrypted.")
        else Except.ok ()
    | _ => Except.ok ()

/-- `assertSessionKey(sessionKey)`: plain-object check, then `data` must be a
`Uint8Array` and `algorithm` must be the string aes256. -/
def assertSessionKey (sessionKey : JSValue) : Except JsError Unit :=
  if !isPlainObjectToString sessionKey then
    Except.error (JsError.formatError "The session keys should be an object.")
  else if !instanceOfUint8Array (getData sessionKey) || !strictEqStr (getAlgorithm sessionKey) "aes256" then
    Except.error (JsError.formatError "The session keys should be a valid openpgp session key aes256.")
  else Except.ok ()

/-- `assertClearMessage(message)`. -/
def assertClearMessage (message : JSValue) : Except JsError Unit :=
  if !instanceOfCleartextMessage message then
    Except.error (JsError.formatError "The message should be a valid openpgp clear text message.")
  else Except.ok ()

/-- Modelled from the spec: `assertPassphrase` lives in
`all/background_page/utils/assertions.js`, which is not among the sources
here; the spec says `decrypt` "validates the passphrase is a non-empty string
(fails with a passphrase-validation error otherwise, independent of key
state)". -/
def assertPassphrase (passphrase : JSValue) : Except JsError Unit :=
  match passphrase with
  | JSValue.str s =>
    if s = "" then Except.error JsError.passphraseValidationError else Except.ok ()
  | _ => Except.error JsError.passphraseValidationError

/-- `DecryptPrivateKeyService.decrypt(privateKey, passphrase)`: in this fork
the decryption step is bypassed; the passphrase shape is validated and the key
argument is returned unchanged. -/
def decrypt (privateKey passphrase : JSValue) : Except JsError JSValue :=
  match assertPassphrase passphrase with
  | Except.error e => Except.error e
  | Except.ok () => Except.ok privateKey

/-- `DecryptPrivateKeyService.decryptArmoredKey(armoredPrivateKey, passphrase)`:
`readKeyOrFail`, then `decrypt` on the parsed key. -/
def decryptArmoredKey (readKey : String → Option KeyObj)
    (armoredPrivateKey passphrase : JSValue) : Except JsError JSValue :=
  match readKeyOrFail readKey armoredPrivateKey with
  | Except.error e => Except.error e
  | Except.ok k => decrypt (JSValue.key k) passphrase

/-!
Concrete fixtures used by the witness theorems.
-/

/-- A public key object: public class, not private, not decrypted. -/
def pubKeyFixture : KeyObj :=
  { cls := KeyClass.publicCls, isPrivateFlag := false, isDecryptedFlag := false }

/-- A decrypted private key object. -/
def privKeyFixture : KeyObj :=
  { cls := KeyClass.privateCls, isPrivateFlag := true, isDecryptedFlag := true }

/-- A collaborator `readKey` that parses the text good and rejects all else. -/
def readKeyFixture : String → Option KeyObj :=
  fun s => if s = "good" then some privKeyFixture else none

/-- A collaborator `enums.read` that recognizes the tag 9 as aes256. -/
def enumsReadFixture : String → Option String :=
  fun s => if s = "9" then some "aes256" else none

/-- A collaborator `readMessage` that rejects everything. -/
def readMessageFixture : String → Option MessageObj := fun _ => none

/-- A collaborator `readCleartextMessage` that rejects everything. -/
def readClearFixture : String → Option CleartextObj := fun _ => none

/-- A collaborator `createMessage`. -/
def createMessageFixture : String → MessageObj := fun _ => { packets := [] }

/-- A collaborator `createCleartextMessage`. -/
def createCleartextFixture : String → CleartextObj := fun s => { text := s }

/-- The session-key example string of the spec. -/
def sessionKeyExample : String :=
  "9:901D6ED579AFF935F9F157A5198BCE48B50AD87345DEADBA06F42C5D018C78CC"

/-!
Helper lemmas.
-/

/-- The batch loop fails with the error of the first violating element, and
the elements after it do not influence the result. -/
theorem assertEach_append_error (f : JSValue → Except JsError Unit)
    (pre rest : List JSValue) (bad : JSValue) (e : JsError)
    (hpre : ∀ x ∈ pre, f x = Except.ok ()) (hbad : f bad = Except.error e) :
    assertEach f (pre ++ bad :: rest) = Except.error e := by
  induction pre with
  | nil => simp [assertEach, hbad]
  | cons a as ih =>
    have ha : f a = Except.ok () := hpre a (by simp)
    simp only [List.cons_append, assertEach, ha]
    exact ih (fun x hx => hpre x (by simp [hx]))

/-- The sequential map fails with the error of the first failing element, and
the elements after it do not influence the result. -/
theorem mapOrFail_append_error {α : Type} (f : JSValue → Except JsError α)
    (pre rest : List JSValue) (bad : JSValue) (e : JsError)
    (hpre : ∀ x ∈ pre, ∃ k, f x = Except.ok k) (hbad : f bad = Except.error e) :
    mapOrFail f (pre ++ bad :: rest) = Except.error e := by
  induction pre with
  | nil => simp [mapOrFail, hbad]
  | cons a as ih =>
    obtain ⟨k, hk⟩ := hpre a (by simp)
    have ih' := ih (fun x hx => hpre x (by simp [hx]))
    simp only [List.cons_append, mapOrFail, hk, List.append_eq, ih']

/-- The sequential map succeeds elementwise. -/
theorem mapOrFail_ok_of_forall₂ {α : Type} (f : JSValue → Except JsError α)
    (xs : List JSValue) (ks : List α)
    (h : List.Forall₂ (fun x k => f x = Except.ok k) xs ks) :
    mapOrFail f xs = Except.ok ks := by
  induction h with
  | nil => rfl
  | cons hxk _ ih => simp only [mapOrFail, hxk, ih]

/-- The modelled passphrase assertion only ever fails with the
passphrase-validation error. -/
theorem assertPassphrase_error_eq (p : JSValue) (e : JsError)
    (h : assertPassphrase p = Except.error e) : e = JsError.passphraseValidationError := by
  cases p with
  | str s =>
    by_cases hs : s = ""
    · rw [(by simp [assertPassphrase, hs] :
          assertPassphrase (JSValue.str s) = Except.error JsError.passphraseValidationError)] at h
      exact (Except.error.inj h).symm
    · rw [(by simp [assertPassphrase, hs] :
          assertPassphrase (JSValue.str s) = Except.ok ())] at h
      cases h
  | undefined => exact (Except.error.inj h).symm
  | null => exact (Except.error.inj h).symm
  | num n => exact (Except.error.inj h).symm
  | arr xs => exact (Except.error.inj h).symm
  | uint8arr b => exact (Except.error.inj h).symm
  | key k => exact (Except.error.inj h).symm
  | message m => exact (Except.error.inj h).symm
  | cleartext c => exact (Except.error.inj h).symm
  | obj d a => exact (Except.error.inj h).symm

/-- A decimal digit is never a colon. -/
theorem regexDigit_ne_colon (c : Char) (h : regexDigit c = true) : c ≠ ':' := by
  intro hc
  subst hc
  exact absurd h (by decide)

/-- Declarative reading of the session-key grammar: one or two decimal digits,
a colon, then exactly 64 case-insensitive hex characters. -/
def sessionKeyGrammarSpec (l : List Char) : Prop :=
  ∃ ds hs : List Char, l = ds ++ ':' :: hs
    ∧ 1 ≤ ds.length ∧ ds.length ≤ 2 ∧ ds.all regexDigit = true
    ∧ hs.length = 64 ∧ hs.all regexHexDigit = true

/-- Unfolding equation: the empty input never matches. -/
theorem sessionKeyRegexTest_nil : sessionKeyRegexTest [] = false := rfl

/-- Unfolding equation: a one-character input never matches. -/
theorem sessionKeyRegexTest_one (c : Char) : sessionKeyRegexTest [c] = false := rfl

/-- Unfolding equation on inputs of length at least two. -/
theorem sessionKeyRegexTest_cons₂ (c₁ c₂ : Char) (rest : List Char) :
    sessionKeyRegexTest (c₁ :: c₂ :: rest) =
      if c₂ = ':' then regexDigit c₁ && hexBlock rest
      else
        match rest with
        | c₃ :: hex => (c₃ == ':') && regexDigit c₁ && regexDigit c₂ && hexBlock hex
        | [] => false := rfl

/-- The executable regular-expression test decides exactly the declarative
grammar. -/
theorem sessionKeyRegexTest_iff (l : List Char) :
    sessionKeyRegexTest l = true ↔ sessionKeyGrammarSpec l := by
  constructor
  · intro h
    match l with
    | [] => exact absurd h (by simp [sessionKeyRegexTest_nil])
    | [c] => exact absurd h (by simp [sessionKeyRegexTest_one])
    | c₁ :: c₂ :: rest =>
      rw [sessionKeyRegexTest_cons₂] at h
      by_cases hc : c₂ = ':'
      · subst hc
        rw [if_pos rfl] at h
        simp only [Bool.and_eq_true, hexBlock, beq_iff_eq, List.all_eq_true] at h
        exact ⟨[c₁], rest, by simp, by simp, by simp, by simp [h.1],
          h.2.1, by simp only [List.all_eq_true]; exact h.2.2⟩
      · rw [if_neg hc] at h
        match rest with
        | [] => exact absurd h (by simp)
        | c₃ :: hex =>
          simp only [Bool.and_eq_true, beq_iff_eq, hexBlock, List.all_eq_true] at h
          obtain ⟨⟨⟨h₃, h₁⟩, h₂⟩, hlen, hhex⟩ := h
          subst h₃
          exact ⟨[c₁, c₂], hex, by simp, by simp, by simp, by simp [h₁, h₂],
            hlen, by simp only [List.all_eq_true]; exact hhex⟩
  · rintro ⟨ds, hs, hl, h1, h2, hdig, hlen, hhex⟩
    subst hl
    match ds, h1, h2 with
    | [d], _, _ =>
      simp only [List.all_cons, List.all_nil, Bool.and_true] at hdig
      simp only [List.cons_append, List.nil_append]
      rw [sessionKeyRegexTest_cons₂, if_pos rfl]
      simp [hexBlock, hdig, hlen, hhex]
    | [d₁, d₂], _, _ =>
      simp only [List.all_cons, List.all_nil, Bool.and_true, Bool.and_eq_true] at hdig
      simp only [List.cons_append, List.nil_append]
      rw [sessionKeyRegexTest_cons₂, if_neg (regexDigit_ne_colon d₂ hdig.2)]
      simp [hexBlock, hdig.1, hdig.2, hlen, hhex]

/-!
Claim theorems.
-/

/-- C1: `DecryptPrivateKeyService.decrypt` applied to any key object and a
non-empty string passphrase succeeds and returns the key object unchanged (no
decryption is attempted); for a missing, empty, or non-string passphrase it
fails with the passphrase-validation error, whatever the state of the key. -/
theorem decrypt_passphrase_gate (k : KeyObj) (p : JSValue) :
    (∀ s : String, s ≠ "" →
        decrypt (JSValue.key k) (JSValue.str s) = Except.ok (JSValue.key k))
    ∧ ((∀ s : String, p = JSValue.str s → s = "") →
        decrypt (JSValue.key k) p = Except.error JsError.passphraseValidationError) := by
  constructor
  · intro s hs
    simp [decrypt, assertPassphrase, hs]
  · intro hp
    cases p with
    | str s => simp [decrypt, assertPassphrase, hp s rfl]
    | undefined => rfl
    | null => rfl
    | num n => rfl
    | arr xs => rfl
    | uint8arr b => rfl
    | key k2 => rfl
    | message m => rfl
    | cleartext c => rfl
    | obj d a => rfl

/-- Witness for C1 at a concrete key, a concrete passphrase and a missing
passphrase. -/
theorem decrypt_passphrase_gate_witness :
    decrypt (JSValue.key privKeyFixture) (JSValue.str "ada@passbolt.com")
        = Except.ok (JSValue.key privKeyFixture)
    ∧ decrypt (JSValue.key privKeyFixture) JSValue.undefined
        = Except.error JsError.passphraseValidationError :=
  ⟨(decrypt_passphrase_gate privKeyFixture JSValue.undefined).1 "ada@passbolt.com" (by decide),
   (decrypt_passphrase_gate privKeyFixture JSValue.undefined).2
     (fun s h => JSValue.noConfusion h)⟩

/-- C10: `decrypt` never inspects its key argument: for every value, key or
not, and every passphrase passing the shape check, it resolves to the argument
unchanged; any failure is the passphrase-validation error, never the
invalid-master-password error and never an already-decrypted state error. -/
theorem decrypt_ignores_key (k p : JSValue) :
    (assertPassphrase p = Except.ok () → decrypt k p = Except.ok k)
    ∧ (∀ e, decrypt k p = Except.error e →
        e = JsError.passphraseValidationError
        ∧ e ≠ JsError.invalidMasterPasswordError
        ∧ e ≠ JsError.illegalStateError) := by
  constructor
  · intro h
    unfold decrypt
    rw [h]
  · intro e he
    unfold decrypt at he
    cases hap : assertPassphrase p with
    | error e2 =>
      rw [hap] at he
      have h1 : e2 = e := Except.error.inj he
      have h2 : e2 = JsError.passphraseValidationError := assertPassphrase_error_eq p e2 hap
      subst h1
      exact ⟨h2, by simp [h2], by simp [h2]⟩
    | ok u =>
      cases u
      rw [hap] at he
      cases he

/-- Witness for C10 at a non-key value and a passing passphrase. -/
theorem decrypt_ignores_key_witness :
    decrypt (JSValue.num 42) (JSValue.str "x") = Except.ok (JSValue.num 42) :=
  (decrypt_ignores_key (JSValue.num 42) (JSValue.str "x")).1 rfl

/-- C9: `decryptArmoredKey` composes `readKeyOrFail` then `decrypt`: on
malformed armored text it fails with the very error of `readKeyOrFail`,
whatever the passphrase (so before any passphrase check); on well-formed
armored text its result is `decrypt` of the parsed key and the passphrase. -/
theorem decryptArmoredKey_composition (readKey : String → Option KeyObj)
    (armored p : JSValue) :
    (∀ e, readKeyOrFail readKey armored = Except.error e →
        decryptArmoredKey readKey armored p = Except.error e)
    ∧ (∀ k, readKeyOrFail readKey armored = Except.ok k →
        decryptArmoredKey readKey armored p = decrypt (JSValue.key k) p) := by
  constructor
  · intro e he
    unfold decryptArmoredKey
    rw [he]
  · intro k hk
    unfold decryptArmoredKey
    rw [hk]

/-- Witness for C9 at malformed and well-formed armored text, the former with
an invalid passphrase. -/
theorem decryptArmoredKey_composition_witness :
    decryptArmoredKey readKeyFixture (JSValue.str "bad") JSValue.undefined
        = Except.error (JsError.formatError "The key should be a valid openpgp armored key string.")
    ∧ decryptArmoredKey readKeyFixture (JSValue.str "good") (JSValue.str "ada@passbolt.com")
        = decrypt (JSValue.key privKeyFixture) (JSValue.str "ada@passbolt.com") :=
  ⟨(decryptArmoredKey_composition readKeyFixture (JSValue.str "bad") JSValue.undefined).1 _ rfl,
   (decryptArmoredKey_composition readKeyFixture (JSValue.str "good")
      (JSValue.str "ada@passbolt.com")).2 privKeyFixture rfl⟩

/-- C5: every parse-or-fail factory rejects every non-string input
(`undefined`, `null`, numbers, objects, ...) with a `FormatError`, whatever
the collaborator does. -/
theorem orFail_factories_reject_non_strings
    (readKey : String → Option KeyObj) (readMessage : String → Option MessageObj)
    (readCleartextMessage : String → Option CleartextObj)
    (createMessage : String → MessageObj) (createCleartextMessage : String → CleartextObj)
    (v : JSValue) (hv : isStringV v = false) :
    failsWithFormatError (readKeyOrFail readKey v) = true
    ∧ failsWithFormatError (readMessageOrFail readMessage v) = true
    ∧ failsWithFormatError (readClearMessageOrFail readCleartextMessage v) = true
    ∧ failsWithFormatError (createMessageOrFail createMessage v) = true
    ∧ failsWithFormatError (createCleartextMessageOrFail createCleartextMessage v) = true := by
  cases v
  case str s => exact absurd hv (by simp [isStringV])
  all_goals exact ⟨rfl, rfl, rfl, rfl, rfl⟩

/-- Witness for C5 at the input `null`. -/
theorem orFail_factories_reject_non_strings_witness :
    failsWithFormatError (readKeyOrFail readKeyFixture JSValue.null) = true
    ∧ failsWithFormatError (readMessageOrFail readMessageFixture JSValue.null) = true
    ∧ failsWithFormatError (readClearMessageOrFail readClearFixture JSValue.null) = true
    ∧ failsWithFormatError (createMessageOrFail createMessageFixture JSValue.null) = true
    ∧ failsWithFormatError (createCleartextMessageOrFail createCleartextFixture JSValue.null) = true :=
  orFail_factories_reject_non_strings readKeyFixture readMessageFixture readClearFixture
    createMessageFixture createCleartextFixture JSValue.null rfl

/-- C7: `assertSessionKey` accepts a plain object whose data is a 32-byte
`Uint8Array` and whose algorithm is the string aes256; it rejects the same
structure with any other algorithm string, rejects data given as a plain array
instead of a byte sequence, and rejects every non-object input. -/
theorem assertSessionKey_allow_list (bytes : List Nat) (_hlen : bytes.length = 32) :
    assertSessionKey (JSValue.obj (JSValue.uint8arr bytes) (JSValue.str "aes256")) = Except.ok ()
    ∧ (∀ a : String, a ≠ "aes256" →
        assertSessionKey (JSValue.obj (JSValue.uint8arr bytes) (JSValue.str a))
          = Except.error (JsError.formatError "The session keys should be a valid openpgp session key aes256."))
    ∧ (∀ xs : List JSValue,
        assertSessionKey (JSValue.obj (JSValue.arr xs) (JSValue.str "aes256"))
          = Except.error (JsError.formatError "The session keys should be a valid openpgp session key aes256."))
    ∧ (∀ v : JSValue, isPlainObjectToString v = false →
        assertSessionKey v
          = Except.error (JsError.formatError "The session keys should be an object.")) := by
  refine ⟨?_, ?_, ?_, ?_⟩
  · simp [assertSessionKey, isPlainObjectToString, getData, getAlgorithm,
      instanceOfUint8Array, strictEqStr]
  · intro a ha
    simp [assertSessionKey, isPlainObjectToString, getData, getAlgorithm,
      instanceOfUint8Array, strictEqStr, ha]
  · intro xs
    simp [assertSessionKey, isPlainObjectToString, getData, getAlgorithm,
      instanceOfUint8Array, strictEqStr]
  · intro v hv
    simp [assertSessionKey, hv]

/-- Witness for C7 at a 32-byte sequence with the allowed and a rejected
algorithm identifier. -/
theorem assertSessionKey_allow_list_witness :
    assertSessionKey (JSValue.obj (JSValue.uint8arr (List.replicate 32 0)) (JSValue.str "aes256"))
        = Except.ok ()
    ∧ assertSessionKey (JSValue.obj (JSValue.uint8arr (List.replicate 32 0)) (JSValue.str "aes128"))
        = Except.error (JsError.formatError "The session keys should be a valid openpgp session key aes256.") :=
  ⟨(assertSessionKey_allow_list (List.replicate 32 0) (by decide)).1,
   (assertSessionKey_allow_list (List.replicate 32 0) (by decide)).2.1 "aes128" (by decide)⟩

/-- A key object whose class tag and role flag agree, as the openpgp
collaborator produces them: `readKey` yields a `PrivateKey` instance exactly
when the key packet is a secret-key packet, which is also what `isPrivate()`
reports. -/
def wellFormedKey (k : KeyObj) : Prop :=
  k.cls = KeyClass.privateCls ↔ k.isPrivateFlag = true

/-- C3: over objects classifiable as keys (with class tag and role flag
consistent, as the collaborator guarantees), `assertPublicKey` succeeds
exactly when the role is not private, `assertPrivateKey` succeeds exactly
when the role is private, and the two assertions are mutually exclusive and
jointly exhaustive: exactly one of them succeeds on every key. -/
theorem key_role_assertions_partition (k : KeyObj) (h : wellFormedKey k) :
    assertKey (JSValue.key k) = Except.ok ()
    ∧ (assertPublicKey (JSValue.key k) = Except.ok () ↔ k.isPrivateFlag = false)
    ∧ (assertPrivateKey (JSValue.key k) = Except.ok () ↔ k.isPrivateFlag = true)
    ∧ (assertPublicKey (JSValue.key k) = Except.ok ()
        ↔ ¬assertPrivateKey (JSValue.key k) = Except.ok ()) := by
  obtain ⟨cls, priv, dec⟩ := k
  cases cls <;> cases priv <;>
    simp_all [wellFormedKey, assertKey, assertPublicKey, assertPrivateKey,
      instanceOfPublicKey, instanceOfPrivateKey, isPrivateCall]

/-- Witness for C3 at a public key object and at a private key object. -/
theorem key_role_assertions_partition_witness :
    assertPublicKey (JSValue.key pubKeyFixture) = Except.ok ()
    ∧ assertPrivateKey (JSValue.key privKeyFixture) = Except.ok () :=
  ⟨(key_role_assertions_partition pubKeyFixture (by unfold wellFormedKey; decide)).2.1.mpr
      (by decide),
   (key_role_assertions_partition privKeyFixture (by unfold wellFormedKey; decide)).2.2.1.mpr
      (by decide)⟩

/-- Unfolding equation of `assertDecryptedMessage` on a message instance. -/
theorem assertDecryptedMessage_message (m : MessageObj) :
    assertDecryptedMessage (JSValue.message m) =
      match findPacket m.packets publicKeyEncryptedSessionKeyTag with
      | none => Except.error (JsError.formatError "The message should contain at least one session key.")
      | some p =>
        if p.encrypted ≠ none then
          Except.error (JsError.formatError "The message should be decrypted.")
        else Except.ok () := rfl

/-- C6: for a message object, `assertDecryptedMessage` fails when no
public-key-encrypted-session-key packet is present, fails when the first such
packet's encrypted field is still set, and succeeds exactly when such a
packet exists and the first one's encrypted field is cleared. -/
theorem assertDecryptedMessage_characterization (m : MessageObj) :
    ((∀ p ∈ m.packets, p.tag ≠ publicKeyEncryptedSessionKeyTag) →
        assertDecryptedMessage (JSValue.message m)
          = Except.error (JsError.formatError "The message should contain at least one session key."))
    ∧ (∀ p, findPacket m.packets publicKeyEncryptedSessionKeyTag = some p →
        p.encrypted ≠ none →
        assertDecryptedMessage (JSValue.message m)
          = Except.error (JsError.formatError "The message should be decrypted."))
    ∧ (assertDecryptedMessage (JSValue.message m) = Except.ok ()
        ↔ ∃ p, findPacket m.packets publicKeyEncryptedSessionKeyTag = some p
            ∧ p.encrypted = none) := by
  refine ⟨?_, ?_, ?_⟩
  · intro hall
    have hf : findPacket m.packets publicKeyEncryptedSessionKeyTag = none := by
      unfold findPacket
      rw [List.find?_eq_none]
      intro p hp
      simp [beq_iff_eq, hall p hp]
    rw [assertDecryptedMessage_message, hf]
  · intro p hp hpe
    rw [assertDecryptedMessage_message, hp]
    simp [hpe]
  · rw [assertDecryptedMessage_message]
    cases hf : findPacket m.packets publicKeyEncryptedSessionKeyTag with
    | none => simp
    | some p =>
      by_cases hpe : p.encrypted = none
      · simp [hpe]
      · simp [hpe]

/-- Witness for C6 at a message with one cleared session-key packet and at a
message with no packet at all. -/
theorem assertDecryptedMessage_characterization_witness :
    assertDecryptedMessage (JSValue.message { packets := [{ tag := 1, encrypted := none }] })
        = Except.ok ()
    ∧ assertDecryptedMessage (JSValue.message { packets := [] })
        = Except.error (JsError.formatError "The message should contain at least one session key.") :=
  ⟨(assertDecryptedMessage_characterization { packets := [{ tag := 1, encrypted := none }] }).2.2.mpr
      ⟨{ tag := 1, encrypted := none }, rfl, rfl⟩,
   (assertDecryptedMessage_characterization { packets := [] }).1 (by simp)⟩

/-- C8: every batch assertion checks elements in index order, element 0
first, and fails with exactly the error of the first violating element,
unaffected by (hence not evaluating) any elements that follow it, with no
aggregation of errors. -/
theorem batch_assertions_fail_fast (pre rest : List JSValue) (bad : JSValue) (e : JsError) :
    ((∀ x ∈ pre, assertKey x = Except.ok ()) → assertKey bad = Except.error e →
        assertKeys (JSValue.arr (pre ++ bad :: rest)) = Except.error e)
    ∧ ((∀ x ∈ pre, assertPublicKey x = Except.ok ()) →
        assertPublicKey bad = Except.error e →
        assertPublicKeys (JSValue.arr (pre ++ bad :: rest)) = Except.error e)
    ∧ ((∀ x ∈ pre, assertPrivateKey x = Except.ok ()) →
        assertPrivateKey bad = Except.error e →
        assertPrivateKeys (JSValue.arr (pre ++ bad :: rest)) = Except.error e)
    ∧ ((∀ x ∈ pre, assertDecryptedPrivateKey x = Except.ok ()) →
        assertDecryptedPrivateKey bad = Except.error e →
        assertDecryptedPrivateKeys (JSValue.arr (pre ++ bad :: rest)) = Except.error e)
    ∧ ((∀ x ∈ pre, assertEncryptedPrivateKey x = Except.ok ()) →
        assertEncryptedPrivateKey bad = Except.error e →
        assertEncryptedPrivateKeys (JSValue.arr (pre ++ bad :: rest)) = Except.error e) :=
  ⟨fun hp hb => assertEach_append_error _ pre rest bad e hp hb,
   fun hp hb => assertEach_append_error _ pre rest bad e hp hb,
   fun hp hb => assertEach_append_error _ pre rest bad e hp hb,
   fun hp hb => assertEach_append_error _ pre rest bad e hp hb,
   fun hp hb => assertEach_append_error _ pre rest bad e hp hb⟩

/-- Witness for C8: a batch with a valid element at index 0, a violating
element at index 1 and a further element at index 2 fails with the error of
directly asserting the element at index 1. -/
theorem batch_assertions_fail_fast_witness :
    assertKeys (JSValue.arr [JSValue.key pubKeyFixture, JSValue.null, JSValue.str "zzz"])
        = Except.error (JsError.formatError "The key should be a valid openpgp key.")
    ∧ assertPrivateKeys (JSValue.arr [JSValue.key privKeyFixture, JSValue.key pubKeyFixture])
        = Except.error (JsError.formatError "The key should be a valid openpgp private key.") :=
  ⟨(batch_assertions_fail_fast [JSValue.key pubKeyFixture] [JSValue.str "zzz"] JSValue.null
      (JsError.formatError "The key should be a valid openpgp key.")).1
    (by intro x hx; simp only [List.mem_singleton] at hx; subst hx; rfl) rfl,
   (batch_assertions_fail_fast [JSValue.key privKeyFixture] [] (JSValue.key pubKeyFixture)
      (JsError.formatError "The key should be a valid openpgp private key.")).2.2.1
    (by intro x hx; simp only [List.mem_singleton] at hx; subst hx; rfl) rfl⟩

/-- C4: `readAllKeysOrFail` fails with a `FormatError` on every non-array
input; on arrays it maps `readKeyOrFail` over the elements with
all-or-nothing semantics: the first malformed entry fails the whole batch
with its own error, unaffected by later entries, and if every entry parses
the parsed keys are all returned in order. -/
theorem readAllKeysOrFail_all_or_nothing (readKey : String → Option KeyObj) :
    (∀ v : JSValue, isArrayV v = false →
        readAllKeysOrFail readKey v
          = Except.error (JsError.formatError "The keys should be an array of valid openpgp armored key strings."))
    ∧ (∀ (pre rest : List JSValue) (bad : JSValue) (e : JsError),
        (∀ x ∈ pre, ∃ k, readKeyOrFail readKey x = Except.ok k) →
        readKeyOrFail readKey bad = Except.error e →
        readAllKeysOrFail readKey (JSValue.arr (pre ++ bad :: rest)) = Except.error e)
    ∧ (∀ (xs : List JSValue) (ks : List KeyObj),
        List.Forall₂ (fun x k => readKeyOrFail readKey x = Except.ok k) xs ks →
        readAllKeysOrFail readKey (JSValue.arr xs) = Except.ok ks) := by
  refine ⟨?_, ?_, ?_⟩
  · intro v hv
    cases v
    case arr xs => exact absurd hv (by simp [isArrayV])
    all_goals rfl
  · intro pre rest bad e hp hb
    exact mapOrFail_append_error _ pre rest bad e hp hb
  · intro xs ks h
    exact mapOrFail_ok_of_forall₂ _ xs ks h

/-- Witness for C4: a batch with one malformed entry fails with that entry's
error; a batch of well-formed entries returns all keys in order. -/
theorem readAllKeysOrFail_all_or_nothing_witness :
    readAllKeysOrFail readKeyFixture
        (JSValue.arr [JSValue.str "good", JSValue.num 1, JSValue.str "good"])
        = Except.error (JsError.formatError "The key should be a valid openpgp armored key string.")
    ∧ readAllKeysOrFail readKeyFixture (JSValue.arr [JSValue.str "good", JSValue.str "good"])
        = Except.ok [privKeyFixture, privKeyFixture] :=
  ⟨(readAllKeysOrFail_all_or_nothing readKeyFixture).2.1 [JSValue.str "good"] [JSValue.str "good"]
      (JSValue.num 1) (JsError.formatError "The key should be a valid openpgp armored key string.")
      (by intro x hx; simp only [List.mem_singleton] at hx; subst hx; exact ⟨privKeyFixture, rfl⟩)
      rfl,
   (readAllKeysOrFail_all_or_nothing readKeyFixture).2.2 _ _
      (List.Forall₂.cons rfl (List.Forall₂.cons rfl List.Forall₂.nil))⟩

/-- `readSessionKeyOrFail` on the empty string: rejected by the non-empty
string assertion. -/
theorem readSessionKeyOrFail_empty (enumsRead : String → Option String) :
    readSessionKeyOrFail enumsRead (JSValue.str "")
      = Except.error (JsError.formatError "The session key should be a string.") := rfl

/-- `readSessionKeyOrFail` on a non-string: rejected by the non-empty string
assertion. -/
theorem readSessionKeyOrFail_not_string (enumsRead : String → Option String)
    (v : JSValue) (hv : isStringV v = false) :
    readSessionKeyOrFail enumsRead v
      = Except.error (JsError.formatError "The session key should be a string.") := by
  cases v
  case str s => exact absurd hv (by simp [isStringV])
  all_goals rfl

/-- Unfolding equation of `readSessionKeyOrFail` on a non-empty string. -/
theorem readSessionKeyOrFail_str (enumsRead : String → Option String) (s : String)
    (hs : s ≠ "") :
    readSessionKeyOrFail enumsRead (JSValue.str s) =
      (if sessionKeyRegexTest s.data = false then
        Except.error (JsError.formatError "The parameter session key does not match the expected format \"integer:hexadecimal-string\".")
      else
        match enumsRead (String.mk (beforeColon s.data)) with
        | some a => Except.ok { data := fromHex (afterColon s.data), algorithm := a }
        | none => Except.error (JsError.wrappedFormatError "The session key should be a valid openpgp session key.")) := by
  have h1 : assertNonEmptyString (JSValue.str s) "The session key should be a string."
      = Except.ok () := by
    simp [assertNonEmptyString, hs]
  unfold readSessionKeyOrFail
  rw [h1]

/-- C2: `readSessionKeyOrFail` succeeds exactly on strings matching the
anchored case-insensitive grammar of one or two decimal digits, a colon, and
exactly 64 hex characters, provided the collaborator recognizes the algorithm
tag; it fails with a `FormatError` when the input is empty or not a string,
and fails with a `FormatError` on every string that does not match the
grammar (63- or 65-hex-character payloads, non-hex characters, or a missing
colon included). -/
theorem readSessionKeyOrFail_grammar_exact (enumsRead : String → Option String)
    (v : JSValue) :
    ((∃ r, readSessionKeyOrFail enumsRead v = Except.ok r)
        ↔ ∃ s : String, v = JSValue.str s ∧ sessionKeyGrammarSpec s.data
            ∧ (enumsRead (String.mk (beforeColon s.data))).isSome = true)
    ∧ (isStringV v = false ∨ v = JSValue.str "" →
        readSessionKeyOrFail enumsRead v
          = Except.error (JsError.formatError "The session key should be a string."))
    ∧ (∀ s : String, v = JSValue.str s → s ≠ "" → sessionKeyRegexTest s.data = false →
        readSessionKeyOrFail enumsRead v
          = Except.error (JsError.formatError "The parameter session key does not match the expected format \"integer:hexadecimal-string\".")) := by
  refine ⟨⟨?_, ?_⟩, ?_, ?_⟩
  · rintro ⟨r, hr⟩
    cases hv : isStringV v with
    | false => rw [readSessionKeyOrFail_not_string enumsRead v hv] at hr; cases hr
    | true =>
      obtain ⟨s, rfl⟩ : ∃ s, v = JSValue.str s := by
        cases v <;> simp [isStringV] at hv
        exact ⟨_, rfl⟩
      by_cases hs : s = ""
      · subst hs
        rw [readSessionKeyOrFail_empty] at hr
        cases hr
      · rw [readSessionKeyOrFail_str enumsRead s hs] at hr
        by_cases ht : sessionKeyRegexTest s.data = false
        · rw [if_pos ht] at hr
          cases hr
        · rw [if_neg ht] at hr
          have ht' : sessionKeyRegexTest s.data = true := by
            revert ht
            cases sessionKeyRegexTest s.data <;> simp
          refine ⟨s, rfl, (sessionKeyRegexTest_iff s.data).mp ht', ?_⟩
          cases he : enumsRead (String.mk (beforeColon s.data)) with
          | some a => simp [he]
          | none => rw [he] at hr; cases hr
  · rintro ⟨s, rfl, hg, he⟩
    have htest : sessionKeyRegexTest s.data = true := (sessionKeyRegexTest_iff s.data).mpr hg
    have hs : s ≠ "" := by
      rintro rfl
      rw [(rfl : ("" : String).data = []), sessionKeyRegexTest_nil] at htest
      cases htest
    rw [readSessionKeyOrFail_str enumsRead s hs, if_neg (by simp [htest])]
    cases he2 : enumsRead (String.mk (beforeColon s.data)) with
    | some a => exact ⟨_, rfl⟩
    | none => rw [he2] at he; cases he
  · intro hv
    cases hv with
    | inl h => exact readSessionKeyOrFail_not_string enumsRead v h
    | inr h => subst h; exact readSessionKeyOrFail_empty enumsRead
  · intro s hv hs ht
    subst hv
    rw [readSessionKeyOrFail_str enumsRead s hs, if_pos ht]

/-- Witness for C2 at the spec's example session key, at a short payload and
at a non-string input. -/
theorem readSessionKeyOrFail_grammar_exact_witness :
    (∃ r, readSessionKeyOrFail enumsReadFixture (JSValue.str sessionKeyExample) = Except.ok r)
    ∧ readSessionKeyOrFail enumsReadFixture (JSValue.str "9:ff")
        = Except.error (JsError.formatError "The parameter session key does not match the expected format \"integer:hexadecimal-string\".")
    ∧ readSessionKeyOrFail enumsReadFixture JSValue.null
        = Except.error (JsError.formatError "The session key should be a string.") :=
  ⟨(readSessionKeyOrFail_grammar_exact enumsReadFixture (JSValue.str sessionKeyExample)).1.mpr
      ⟨sessionKeyExample, rfl, (sessionKeyRegexTest_iff sessionKeyExample.data).mp (by decide),
        by decide⟩,
   (readSessionKeyOrFail_grammar_exact enumsReadFixture (JSValue.str "9:ff")).2.2 "9:ff" rfl
      (by decide) (by decide),
   (readSessionKeyOrFail_grammar_exact enumsReadFixture JSValue.null).2.1 (Or.inl rfl)⟩
